import Mathlib

/-! ParagraphLocalData: a seal-guarded value object.

Shallow embedding of `ABI34_0_0ParagraphLocalData.cpp`.

A C++ member function that may throw is embedded as a function from the
object's state to the pair of its outcome (`Except Fault α`) and the object's
state when the call has ended (returned or thrown).  A `const` member function
has the same shape, so that "does not change the object" is a statement and not
a by-product of the type.

The types `AttributedString` and `TextLayoutManager` are declared outside this
translation unit; the object is generic in both (`AS`, `TLM`).  A
`SharedTextLayoutManager` is a shared pointer, possibly null: `Option TLM`.
-/

namespace ParagraphLocalData

/-- Fault raised by a member function. `MutationAfterSeal` is the fault of the
seal guard; `SealAfterSeal` is the fault of a second `Seal()` under the fatal
re-seal discipline. -/
inductive Fault where
  | MutationAfterSeal
  | SealAfterSeal
deriving DecidableEq, Repr

/-- What `Seal()` does on an instance that is already sealed; the spec leaves
this to the implementation ("idempotently or fatally on re-invocation"). -/
inductive ResealPolicy where
  | idempotent
  | fatal
deriving DecidableEq, Repr

end ParagraphLocalData

/-- Fields of a `ParagraphLocalData` object: `attributedString_`,
`textLayoutManager_` (a shared pointer, `none` when null) and the `sealed_`
flag inherited from `Sealable`. -/
structure ParagraphLocalData (AS TLM : Type) where
  attributedString_ : AS
  textLayoutManager_ : Option TLM
  sealed_ : Bool
deriving DecidableEq, Repr

namespace ParagraphLocalData

variable {AS TLM I D : Type}

/-- Outcome and final object state of a member function returning `α`. -/
abbrev Method (AS TLM α : Type) : Type :=
  ParagraphLocalData AS TLM → Except Fault α × ParagraphLocalData AS TLM

/-- Modelled from the spec: the default constructor (the class declaration,
with its field initialisers, is in the absent header).  The object is
"constructed empty": the attributed string is the default value of its type,
the layout-manager pointer is null and `sealed` is false at construction. -/
def fresh [Inhabited AS] : ParagraphLocalData AS TLM :=
  { attributedString_ := default, textLayoutManager_ := none, sealed_ := false }

/-- Modelled from the spec: `Sealable::ensureUnsealed()` (the `Sealable` base
is absent from the source).  The guard raises the `MutationAfterSeal` fault on
a sealed object and returns on an unsealed one; it writes nothing. -/
def ensureUnsealed : Method AS TLM Unit := fun s =>
  if s.sealed_ then (.error .MutationAfterSeal, s) else (.ok (), s)

/-- Modelled from the spec: `Sealable::seal()` (absent from the source; named
`Seal` as in the spec, `seal` being a reserved word here).  It
takes `Unsealed` to `Sealed`; on a sealed object it either returns
(idempotent) or faults (fatal), in both cases leaving the object sealed. -/
def Seal (p : ResealPolicy) : Method AS TLM Unit := fun s =>
  if s.sealed_ then
    match p with
    | .idempotent => (.ok (), s)
    | .fatal => (.error .SealAfterSeal, s)
  else (.ok (), { s with sealed_ := true })

/-- Source lines 16-18: `return attributedString_;`. -/
def getAttributedString : Method AS TLM AS := fun s =>
  (.ok s.attributedString_, s)

/-- Source lines 20-24: `ensureUnsealed(); attributedString_ = attributedString;`. -/
def setAttributedString (attributedString : AS) : Method AS TLM Unit := fun s =>
  match ensureUnsealed s with
  | (.error e, s1) => (.error e, s1)
  | (.ok (), s1) => (.ok (), { s1 with attributedString_ := attributedString })

/-- Source lines 26-28: `return textLayoutManager_;`. -/
def getTextLayoutManager : Method AS TLM (Option TLM) := fun s =>
  (.ok s.textLayoutManager_, s)

/-- Source lines 30-34: `ensureUnsealed(); textLayoutManager_ = textLayoutManager;`. -/
def setTextLayoutManager (textLayoutManager : Option TLM) : Method AS TLM Unit := fun s =>
  match ensureUnsealed s with
  | (.error e, s1) => (.error e, s1)
  | (.ok (), s1) => (.ok (), { s1 with textLayoutManager_ := textLayoutManager })

/-- Source lines 38-40: `return toDynamic(*this);`.  The converter `toDynamic`
(conversions.h, absent) is a parameter; it receives the object by constant
reference. -/
def getDynamic (toDynamic : ParagraphLocalData AS TLM → D) : Method AS TLM D := fun s =>
  (.ok (toDynamic s), s)

/-- Source lines 47-49: `return "ParagraphLocalData";`. -/
def getDebugName : Method AS TLM String := fun s =>
  (.ok "ParagraphLocalData", s)

/-- Source lines 51-54: the one-element list
`debugStringConvertibleItem("attributedString", attributedString_, "")`.  The
helper `debugStringConvertibleItem` (debugStringConvertibleUtils.h, absent) is
a parameter. -/
def getDebugProps (debugStringConvertibleItem : String → AS → String → I) :
    Method AS TLM (List I) := fun s =>
  (.ok [debugStringConvertibleItem "attributedString" s.attributedString_ ""], s)

/-- A call of one member function, with its arguments. -/
inductive Op (AS TLM : Type) where
  | getAttributedString
  | setAttributedString (attributedString : AS)
  | getTextLayoutManager
  | setTextLayoutManager (textLayoutManager : Option TLM)
  | Seal
  | getDynamic
  | getDebugName
  | getDebugProps

/-- The object after one call, whether the call returned or faulted. -/
def applyOp (p : ResealPolicy) (toDynamic : ParagraphLocalData AS TLM → D)
    (debugStringConvertibleItem : String → AS → String → I)
    (s : ParagraphLocalData AS TLM) : Op AS TLM → ParagraphLocalData AS TLM
  | .getAttributedString => (getAttributedString s).2
  | .setAttributedString v => (setAttributedString v s).2
  | .getTextLayoutManager => (getTextLayoutManager s).2
  | .setTextLayoutManager r => (setTextLayoutManager r s).2
  | .Seal => (Seal p s).2
  | .getDynamic => (getDynamic toDynamic s).2
  | .getDebugName => (getDebugName s).2
  | .getDebugProps => (getDebugProps debugStringConvertibleItem s).2

/-- The object after a sequence of calls, made one after the other. -/
def runOps (p : ResealPolicy) (toDynamic : ParagraphLocalData AS TLM → D)
    (debugStringConvertibleItem : String → AS → String → I)
    (s : ParagraphLocalData AS TLM) (ops : List (Op AS TLM)) : ParagraphLocalData AS TLM :=
  ops.foldl (applyOp p toDynamic debugStringConvertibleItem) s

/-- The object after `n` calls of `Seal()`. -/
def sealTimes (p : ResealPolicy) : Nat → ParagraphLocalData AS TLM → ParagraphLocalData AS TLM
  | 0, s => s
  | n + 1, s => sealTimes p n (Seal p s).2

/-- Modelled from the spec: a text run of an attributed string, "a text
fragment plus its formatting attributes" (the type is declared in the absent
attributed-string header).  The attributes are the names of the formats
applied; a plain run has none. -/
structure Fragment where
  string : String
  textAttributes : List String
deriving DecidableEq, Repr

/-- Modelled from the spec: an attributed string is "an ordered sequence of
text runs"; its default value is the empty sequence. -/
abbrev AttributedString : Type := List Fragment

/-- Modelled from the spec: one entry of the debug description, a property
name with its formatted value, and the formatting hint it was built with. -/
structure DebugStringConvertibleItem where
  name : String
  value : String
  hint : String
deriving DecidableEq, Repr

/-- Modelled from the spec: the "formatted attributed-string text" of the
debug description (the formatter is in the absent debug-printing headers): the
text of the runs, in order. -/
def debugText (v : AttributedString) : String :=
  String.join (v.map Fragment.string)

/-- Modelled from the spec: `debugStringConvertibleItem` (absent helper): the
entry maps the property name to the formatted value; the third argument is an
opaque formatting hint, kept as passed. -/
def debugStringConvertibleItem (name : String) (value : AttributedString) (hint : String) :
    DebugStringConvertibleItem :=
  { name := name, value := debugText value, hint := hint }

/-! ## Auxiliary facts -/

theorem ensureUnsealed_of_sealed (s : ParagraphLocalData AS TLM) (h : s.sealed_ = true) :
    ensureUnsealed s = (.error .MutationAfterSeal, s) := by
  simp [ensureUnsealed, h]

theorem ensureUnsealed_of_unsealed (s : ParagraphLocalData AS TLM) (h : s.sealed_ = false) :
    ensureUnsealed s = (.ok (), s) := by
  simp [ensureUnsealed, h]

theorem setAttributedString_of_sealed (v : AS) (s : ParagraphLocalData AS TLM)
    (h : s.sealed_ = true) :
    setAttributedString v s = (.error .MutationAfterSeal, s) := by
  simp [setAttributedString, ensureUnsealed_of_sealed s h]

theorem setTextLayoutManager_of_sealed (r : Option TLM) (s : ParagraphLocalData AS TLM)
    (h : s.sealed_ = true) :
    setTextLayoutManager r s = (.error .MutationAfterSeal, s) := by
  simp [setTextLayoutManager, ensureUnsealed_of_sealed s h]

theorem setAttributedString_of_unsealed (v : AS) (s : ParagraphLocalData AS TLM)
    (h : s.sealed_ = false) :
    setAttributedString v s = (.ok (), { s with attributedString_ := v }) := by
  simp [setAttributedString, ensureUnsealed_of_unsealed s h]

theorem setTextLayoutManager_of_unsealed (r : Option TLM) (s : ParagraphLocalData AS TLM)
    (h : s.sealed_ = false) :
    setTextLayoutManager r s = (.ok (), { s with textLayoutManager_ := r }) := by
  simp [setTextLayoutManager, ensureUnsealed_of_unsealed s h]

theorem Seal_state (p : ResealPolicy) (s : ParagraphLocalData AS TLM) :
    (Seal p s).2 = { s with sealed_ := true } := by
  cases p <;> cases h : s.sealed_ <;> simp [Seal, h] <;> cases s <;> simp_all

theorem Seal_of_sealed (p : ResealPolicy) (s : ParagraphLocalData AS TLM)
    (h : s.sealed_ = true) : (Seal p s).2 = s := by
  rw [Seal_state]; cases s; simp_all

theorem applyOp_of_sealed (p : ResealPolicy) (toDynamic : ParagraphLocalData AS TLM → D)
    (item : String → AS → String → I) (s : ParagraphLocalData AS TLM)
    (h : s.sealed_ = true) (op : Op AS TLM) :
    applyOp p toDynamic item s op = s := by
  cases op <;>
    simp [applyOp, getAttributedString, getTextLayoutManager, getDynamic, getDebugName,
      getDebugProps, setAttributedString_of_sealed _ s h, setTextLayoutManager_of_sealed _ s h,
      Seal_of_sealed p s h]

theorem runOps_of_sealed (p : ResealPolicy) (toDynamic : ParagraphLocalData AS TLM → D)
    (item : String → AS → String → I) (s : ParagraphLocalData AS TLM)
    (h : s.sealed_ = true) (ops : List (Op AS TLM)) :
    runOps p toDynamic item s ops = s := by
  induction ops with
  | nil => rfl
  | cons op ops ih =>
    simp only [runOps, List.foldl_cons, applyOp_of_sealed p toDynamic item s h op]
    exact ih

theorem sealTimes_succ_state (p : ResealPolicy) (n : Nat) (s : ParagraphLocalData AS TLM) :
    sealTimes p (n + 1) s = { s with sealed_ := true } := by
  induction n generalizing s with
  | zero => simp [sealTimes, Seal_state]
  | succ n ih =>
    rw [sealTimes, ih, Seal_state]

/-! ## Round trips on a fresh object -/

/-- C1: on a freshly constructed (unsealed) object, `setAttributedString v1`
returns and `getAttributedString` then returns `v1`. -/
theorem fresh_setAttributedString_getAttributedString [Inhabited AS] (v1 : AS) :
    (setAttributedString v1 (fresh : ParagraphLocalData AS TLM)).1 = .ok () ∧
    (getAttributedString (setAttributedString v1 (fresh : ParagraphLocalData AS TLM)).2).1
      = .ok v1 := by
  simp [setAttributedString_of_unsealed, fresh, getAttributedString]

/-- C2: on a freshly constructed (unsealed) object, `setTextLayoutManager r1`
returns and `getTextLayoutManager` then returns the same reference `r1`. -/
theorem fresh_setTextLayoutManager_getTextLayoutManager [Inhabited AS] (r1 : Option TLM) :
    (setTextLayoutManager r1 (fresh : ParagraphLocalData AS TLM)).1 = .ok () ∧
    (getTextLayoutManager (setTextLayoutManager r1 (fresh : ParagraphLocalData AS TLM)).2).1
      = .ok r1 := by
  simp [setTextLayoutManager_of_unsealed, fresh, getTextLayoutManager]

/-! ## The seal guard -/

/-- C3: after `n ≥ 1` calls of `Seal()` on any object, under either re-seal
discipline, and after any further calls `ops`, both setters raise
`MutationAfterSeal` whatever their argument and return the object as it was;
and both setters check the guard before doing anything else: on every object
`s` the outcome of a setter is the outcome of its guard, and a setter called
on a sealed `s` ends exactly as the guard does (the guard's fault, the guard's
object, nothing written), while on an unsealed `s` it is the single
assignment. -/
theorem setters_fault_after_Seal (p : ResealPolicy)
    (toDynamic : ParagraphLocalData AS TLM → D) (item : String → AS → String → I)
    (s0 s : ParagraphLocalData AS TLM) (n : Nat) (hn : 1 ≤ n)
    (ops : List (Op AS TLM)) (v : AS) (r : Option TLM) :
    (setAttributedString v (runOps p toDynamic item (sealTimes p n s0) ops)).1
      = .error .MutationAfterSeal ∧
    (setTextLayoutManager r (runOps p toDynamic item (sealTimes p n s0) ops)).1
      = .error .MutationAfterSeal ∧
    (setAttributedString v s).1 = (ensureUnsealed s).1 ∧
    (setTextLayoutManager r s).1 = (ensureUnsealed s).1 ∧
    (setAttributedString v (runOps p toDynamic item (sealTimes p n s0) ops)).2
      = runOps p toDynamic item (sealTimes p n s0) ops ∧
    (setTextLayoutManager r (runOps p toDynamic item (sealTimes p n s0) ops)).2
      = runOps p toDynamic item (sealTimes p n s0) ops ∧
    setAttributedString v (runOps p toDynamic item (sealTimes p n s0) ops)
      = ensureUnsealed (runOps p toDynamic item (sealTimes p n s0) ops) ∧
    setTextLayoutManager r (runOps p toDynamic item (sealTimes p n s0) ops)
      = ensureUnsealed (runOps p toDynamic item (sealTimes p n s0) ops) ∧
    setAttributedString v s
      = (if s.sealed_ then ensureUnsealed s
          else (.ok (), { s with attributedString_ := v })) ∧
    setTextLayoutManager r s
      = (if s.sealed_ then ensureUnsealed s
          else (.ok (), { s with textLayoutManager_ := r })) := by
  obtain ⟨m, rfl⟩ : ∃ m, n = m + 1 := ⟨n - 1, by omega⟩
  have hS : (sealTimes p (m + 1) s0).sealed_ = true := by simp [sealTimes_succ_state]
  rw [runOps_of_sealed p toDynamic item _ hS ops]
  refine ⟨?_, ?_, ?_, ?_, ?_, ?_, ?_, ?_, ?_, ?_⟩
  · rw [setAttributedString_of_sealed _ _ hS]
  · rw [setTextLayoutManager_of_sealed _ _ hS]
  · cases h : s.sealed_ <;> simp [setAttributedString, ensureUnsealed, h]
  · cases h : s.sealed_ <;> simp [setTextLayoutManager, ensureUnsealed, h]
  · rw [setAttributedString_of_sealed _ _ hS]
  · rw [setTextLayoutManager_of_sealed _ _ hS]
  · rw [setAttributedString_of_sealed _ _ hS, ensureUnsealed_of_sealed _ hS]
  · rw [setTextLayoutManager_of_sealed _ _ hS, ensureUnsealed_of_sealed _ hS]
  · cases h : s.sealed_ <;> simp [setAttributedString, ensureUnsealed, h]
  · cases h : s.sealed_ <;> simp [setTextLayoutManager, ensureUnsealed, h]

/-- Witness of C3: a fresh object sealed twice under the fatal discipline, then
a setter call and another `Seal()`; the object `s` of the guard-first
conjuncts is sealed and holds the run "Hello" and layout manager 3. -/
theorem setters_fault_after_Seal_witness :
    1 ≤ 2 ∧
    ((setAttributedString [⟨"x", []⟩]
        (runOps .fatal (fun _ => ()) debugStringConvertibleItem
          (sealTimes .fatal 2 (fresh : ParagraphLocalData AttributedString Nat))
          [.setAttributedString [⟨"y", []⟩], .Seal])).1
      = .error .MutationAfterSeal ∧
    (setTextLayoutManager (some 7)
        (runOps .fatal (fun _ => ()) debugStringConvertibleItem
          (sealTimes .fatal 2 (fresh : ParagraphLocalData AttributedString Nat))
          [.setAttributedString [⟨"y", []⟩], .Seal])).1
      = .error .MutationAfterSeal ∧
    (setAttributedString [⟨"x", []⟩]
        (⟨[⟨"Hello", ["bold"]⟩], some 3, true⟩ : ParagraphLocalData AttributedString Nat)).1
      = (ensureUnsealed
        (⟨[⟨"Hello", ["bold"]⟩], some 3, true⟩ : ParagraphLocalData AttributedString Nat)).1 ∧
    (setTextLayoutManager (some 7)
        (⟨[⟨"Hello", ["bold"]⟩], some 3, true⟩ : ParagraphLocalData AttributedString Nat)).1
      = (ensureUnsealed
        (⟨[⟨"Hello", ["bold"]⟩], some 3, true⟩ : ParagraphLocalData AttributedString Nat)).1 ∧
    (setAttributedString [⟨"x", []⟩]
        (runOps .fatal (fun _ => ()) debugStringConvertibleItem
          (sealTimes .fatal 2 (fresh : ParagraphLocalData AttributedString Nat))
          [.setAttributedString [⟨"y", []⟩], .Seal])).2
      = runOps .fatal (fun _ => ()) debugStringConvertibleItem
          (sealTimes .fatal 2 (fresh : ParagraphLocalData AttributedString Nat))
          [.setAttributedString [⟨"y", []⟩], .Seal] ∧
    (setTextLayoutManager (some 7)
        (runOps .fatal (fun _ => ()) debugStringConvertibleItem
          (sealTimes .fatal 2 (fresh : ParagraphLocalData AttributedString Nat))
          [.setAttributedString [⟨"y", []⟩], .Seal])).2
      = runOps .fatal (fun _ => ()) debugStringConvertibleItem
          (sealTimes .fatal 2 (fresh : ParagraphLocalData AttributedString Nat))
          [.setAttributedString [⟨"y", []⟩], .Seal] ∧
    setAttributedString [⟨"x", []⟩]
        (runOps .fatal (fun _ => ()) debugStringConvertibleItem
          (sealTimes .fatal 2 (fresh : ParagraphLocalData AttributedString Nat))
          [.setAttributedString [⟨"y", []⟩], .Seal])
      = ensureUnsealed
        (runOps .fatal (fun _ => ()) debugStringConvertibleItem
          (sealTimes .fatal 2 (fresh : ParagraphLocalData AttributedString Nat))
          [.setAttributedString [⟨"y", []⟩], .Seal]) ∧
    setTextLayoutManager (some 7)
        (runOps .fatal (fun _ => ()) debugStringConvertibleItem
          (sealTimes .fatal 2 (fresh : ParagraphLocalData AttributedString Nat))
          [.setAttributedString [⟨"y", []⟩], .Seal])
      = ensureUnsealed
        (runOps .fatal (fun _ => ()) debugStringConvertibleItem
          (sealTimes .fatal 2 (fresh : ParagraphLocalData AttributedString Nat))
          [.setAttributedString [⟨"y", []⟩], .Seal]) ∧
    setAttributedString [⟨"x", []⟩]
        (⟨[⟨"Hello", ["bold"]⟩], some 3, true⟩ : ParagraphLocalData AttributedString Nat)
      = (if (⟨[⟨"Hello", ["bold"]⟩], some 3, true⟩ :
            ParagraphLocalData AttributedString Nat).sealed_
          then ensureUnsealed
            (⟨[⟨"Hello", ["bold"]⟩], some 3, true⟩ : ParagraphLocalData AttributedString Nat)
          else (.ok (), ⟨[⟨"x", []⟩], some 3, true⟩)) ∧
    setTextLayoutManager (some 7)
        (⟨[⟨"Hello", ["bold"]⟩], some 3, true⟩ : ParagraphLocalData AttributedString Nat)
      = (if (⟨[⟨"Hello", ["bold"]⟩], some 3, true⟩ :
            ParagraphLocalData AttributedString Nat).sealed_
          then ensureUnsealed
            (⟨[⟨"Hello", ["bold"]⟩], some 3, true⟩ : ParagraphLocalData AttributedString Nat)
          else (.ok (), ⟨[⟨"Hello", ["bold"]⟩], some 7, true⟩))) :=
  ⟨by decide,
    setters_fault_after_Seal .fatal (fun _ => ()) debugStringConvertibleItem
      fresh (⟨[⟨"Hello", ["bold"]⟩], some 3, true⟩ : ParagraphLocalData AttributedString Nat)
      2 (by decide) [.setAttributedString [⟨"y", []⟩], .Seal]
      [⟨"x", []⟩] (some 7)⟩

/-- C4: a faulting setter leaves the object unchanged: on every sealed object
`s`, each setter raises `MutationAfterSeal` and the object after the call is
`s` (all three fields).  Scenario B: construct, seal, `setAttributedString
["x"]` faults and `getAttributedString` still returns the default empty
value. -/
theorem faulting_setter_leaves_object_unchanged (p : ResealPolicy)
    (s : ParagraphLocalData AS TLM) (hs : s.sealed_ = true) (x : AS) (y : Option TLM) :
    ((setAttributedString x s).1 = .error .MutationAfterSeal ∧
      (setAttributedString x s).2 = s) ∧
    ((setTextLayoutManager y s).1 = .error .MutationAfterSeal ∧
      (setTextLayoutManager y s).2 = s) ∧
    (setAttributedString [⟨"x", []⟩]
        (Seal p (fresh : ParagraphLocalData AttributedString TLM)).2).1
      = .error .MutationAfterSeal ∧
    (getAttributedString
        (setAttributedString [⟨"x", []⟩]
          (Seal p (fresh : ParagraphLocalData AttributedString TLM)).2).2).1
      = .ok [] := by
  have hF : (Seal p (fresh : ParagraphLocalData AttributedString TLM)).2.sealed_ = true := by
    simp [Seal_state]
  refine ⟨?_, ?_, ?_, ?_⟩
  · simp [setAttributedString_of_sealed x s hs]
  · simp [setTextLayoutManager_of_sealed y s hs]
  · rw [setAttributedString_of_sealed _ _ hF]
  · rw [setAttributedString_of_sealed _ _ hF]
    simp [getAttributedString, Seal_state, fresh]
    rfl

/-- Witness of C4: a sealed object holding the run "Hello" and layout manager
3. -/
theorem faulting_setter_leaves_object_unchanged_witness :
    (⟨[⟨"Hello", ["bold"]⟩], some 3, true⟩ : ParagraphLocalData AttributedString Nat).sealed_
      = true ∧
    (((setAttributedString [⟨"x", []⟩]
          (⟨[⟨"Hello", ["bold"]⟩], some 3, true⟩ : ParagraphLocalData AttributedString Nat)).1
        = .error .MutationAfterSeal ∧
      (setAttributedString [⟨"x", []⟩]
          (⟨[⟨"Hello", ["bold"]⟩], some 3, true⟩ : ParagraphLocalData AttributedString Nat)).2
        = ⟨[⟨"Hello", ["bold"]⟩], some 3, true⟩) ∧
    ((setTextLayoutManager none
          (⟨[⟨"Hello", ["bold"]⟩], some 3, true⟩ : ParagraphLocalData AttributedString Nat)).1
        = .error .MutationAfterSeal ∧
      (setTextLayoutManager none
          (⟨[⟨"Hello", ["bold"]⟩], some 3, true⟩ : ParagraphLocalData AttributedString Nat)).2
        = ⟨[⟨"Hello", ["bold"]⟩], some 3, true⟩) ∧
    (setAttributedString [⟨"x", []⟩]
        (Seal .idempotent (fresh : ParagraphLocalData AttributedString Nat)).2).1
      = .error .MutationAfterSeal ∧
    (getAttributedString
        (setAttributedString [⟨"x", []⟩]
          (Seal .idempotent (fresh : ParagraphLocalData AttributedString Nat)).2).2).1
      = .ok []) :=
  ⟨rfl,
    faulting_setter_leaves_object_unchanged .idempotent
      (⟨[⟨"Hello", ["bold"]⟩], some 3, true⟩ : ParagraphLocalData AttributedString Nat)
      rfl [⟨"x", []⟩] none⟩

/-- C5: once sealed, the payload is immutable: for every object `s0`, after
`Seal()` and any sequence `ops` of calls (getters, setters, `Seal`, debug
description, generic-value conversion) the object is the one left by the first
`Seal()`: the flag is true and both getters return the values held when
sealing, which are those of `s0`.  Scenario A: construct, `setAttributedString
v`, seal, then `getAttributedString` returns `v`. -/
theorem sealed_payload_immutable [Inhabited AS] (p : ResealPolicy)
    (toDynamic : ParagraphLocalData AS TLM → D) (item : String → AS → String → I)
    (s0 : ParagraphLocalData AS TLM) (ops : List (Op AS TLM)) (v : AS) :
    (runOps p toDynamic item (Seal p s0).2 ops).sealed_ = true ∧
    (getAttributedString (runOps p toDynamic item (Seal p s0).2 ops)).1
      = .ok s0.attributedString_ ∧
    (getTextLayoutManager (runOps p toDynamic item (Seal p s0).2 ops)).1
      = .ok s0.textLayoutManager_ ∧
    runOps p toDynamic item (Seal p s0).2 ops = (Seal p s0).2 ∧
    (getAttributedString
        (runOps p toDynamic item
          (Seal p (setAttributedString v (fresh : ParagraphLocalData AS TLM)).2).2 ops)).1
      = .ok v := by
  have hS : ∀ s : ParagraphLocalData AS TLM, (Seal p s).2.sealed_ = true := by
    intro s; simp [Seal_state]
  have hR : ∀ s : ParagraphLocalData AS TLM,
      runOps p toDynamic item (Seal p s).2 ops = (Seal p s).2 :=
    fun s => runOps_of_sealed p toDynamic item _ (hS s) ops
  refine ⟨?_, ?_, ?_, hR s0, ?_⟩
  · rw [hR]; exact hS s0
  · rw [hR]; simp [getAttributedString, Seal_state]
  · rw [hR]; simp [getTextLayoutManager, Seal_state]
  · rw [hR]; simp [getAttributedString, Seal_state, setAttributedString_of_unsealed, fresh]

/-! ## Read operations -/

/-- C6: the read operations `getAttributedString`, `getTextLayoutManager`,
`getDebugName`, `getDebugProps` and `getDynamic` return a result (no fault) on
every object, sealed or not, and leave the object as it was. -/
theorem read_operations_total_and_pure
    (toDynamic : ParagraphLocalData AS TLM → D) (item : String → AS → String → I)
    (s : ParagraphLocalData AS TLM) :
    getAttributedString s = (.ok s.attributedString_, s) ∧
    getTextLayoutManager s = (.ok s.textLayoutManager_, s) ∧
    getDebugName s = (.ok "ParagraphLocalData", s) ∧
    getDebugProps item s = (.ok [item "attributedString" s.attributedString_ ""], s) ∧
    getDynamic toDynamic s = (.ok (toDynamic s), s) :=
  ⟨rfl, rfl, rfl, rfl, rfl⟩

/-- C7: the debug name is exactly "ParagraphLocalData"; the property list has
exactly one entry, built by the item helper from the name "attributedString",
the current attributed string and the empty string; with the helper of the
debug-printing contract that entry is named "attributedString" and its value
is the formatted text of the current attributed string; after
`setAttributedString` of the single plain run "A" on a fresh object the
formatted text is "A". -/
theorem debug_description (item : String → AS → String → I)
    (s : ParagraphLocalData AS TLM) (t : ParagraphLocalData AttributedString TLM) :
    (getDebugName s).1 = .ok "ParagraphLocalData" ∧
    (getDebugProps item s).1 = .ok [item "attributedString" s.attributedString_ ""] ∧
    (getDebugProps debugStringConvertibleItem t).1
      = .ok [⟨"attributedString", debugText t.attributedString_, ""⟩] ∧
    (getDebugName
        (setAttributedString [⟨"A", []⟩]
          (fresh : ParagraphLocalData AttributedString TLM)).2).1
      = .ok "ParagraphLocalData" ∧
    (getDebugProps debugStringConvertibleItem
        (setAttributedString [⟨"A", []⟩]
          (fresh : ParagraphLocalData AttributedString TLM)).2).1
      = .ok [⟨"attributedString", "A", ""⟩] := by
  refine ⟨rfl, rfl, rfl, rfl, ?_⟩
  simp [setAttributedString_of_unsealed, fresh, getDebugProps, debugStringConvertibleItem,
    debugText, String.join]

/-! ## Setters on an unsealed object -/

/-- C9: on every unsealed object each setter returns and changes only its own
field: `setAttributedString v` leaves `textLayoutManager_` and `sealed_` as
they were, `setTextLayoutManager r` leaves `attributedString_` and `sealed_`
as they were; the two setters commute. -/
theorem setters_frame_and_commute (s : ParagraphLocalData AS TLM)
    (hs : s.sealed_ = false) (v : AS) (r : Option TLM) :
    ((setAttributedString v s).1 = .ok () ∧
      (setAttributedString v s).2.attributedString_ = v ∧
      (setAttributedString v s).2.textLayoutManager_ = s.textLayoutManager_ ∧
      (setAttributedString v s).2.sealed_ = s.sealed_) ∧
    ((setTextLayoutManager r s).1 = .ok () ∧
      (setTextLayoutManager r s).2.textLayoutManager_ = r ∧
      (setTextLayoutManager r s).2.attributedString_ = s.attributedString_ ∧
      (setTextLayoutManager r s).2.sealed_ = s.sealed_) ∧
    setTextLayoutManager r (setAttributedString v s).2
      = setAttributedString v (setTextLayoutManager r s).2 := by
  have h1 := setAttributedString_of_unsealed v s hs
  have h2 := setTextLayoutManager_of_unsealed r s hs
  refine ⟨?_, ?_, ?_⟩
  · simp [h1]
  · simp [h2]
  · simp [setAttributedString, setTextLayoutManager, ensureUnsealed, hs]

/-- Witness of C9: an unsealed object holding the run "a" and layout manager
1. -/
theorem setters_frame_and_commute_witness :
    (⟨[⟨"a", []⟩], some 1, false⟩ : ParagraphLocalData AttributedString Nat).sealed_ = false ∧
    (((setAttributedString [⟨"b", ["bold"]⟩]
          (⟨[⟨"a", []⟩], some 1, false⟩ : ParagraphLocalData AttributedString Nat)).1 = .ok () ∧
      (setAttributedString [⟨"b", ["bold"]⟩]
          (⟨[⟨"a", []⟩], some 1, false⟩ : ParagraphLocalData AttributedString Nat)).2.attributedString_
        = [⟨"b", ["bold"]⟩] ∧
      (setAttributedString [⟨"b", ["bold"]⟩]
          (⟨[⟨"a", []⟩], some 1, false⟩ : ParagraphLocalData AttributedString Nat)).2.textLayoutManager_
        = (⟨[⟨"a", []⟩], some 1, false⟩ : ParagraphLocalData AttributedString Nat).textLayoutManager_ ∧
      (setAttributedString [⟨"b", ["bold"]⟩]
          (⟨[⟨"a", []⟩], some 1, false⟩ : ParagraphLocalData AttributedString Nat)).2.sealed_
        = (⟨[⟨"a", []⟩], some 1, false⟩ : ParagraphLocalData AttributedString Nat).sealed_) ∧
    ((setTextLayoutManager (some 2)
          (⟨[⟨"a", []⟩], some 1, false⟩ : ParagraphLocalData AttributedString Nat)).1 = .ok () ∧
      (setTextLayoutManager (some 2)
          (⟨[⟨"a", []⟩], some 1, false⟩ : ParagraphLocalData AttributedString Nat)).2.textLayoutManager_
        = some 2 ∧
      (setTextLayoutManager (some 2)
          (⟨[⟨"a", []⟩], some 1, false⟩ : ParagraphLocalData AttributedString Nat)).2.attributedString_
        = (⟨[⟨"a", []⟩], some 1, false⟩ : ParagraphLocalData AttributedString Nat).attributedString_ ∧
      (setTextLayoutManager (some 2)
          (⟨[⟨"a", []⟩], some 1, false⟩ : ParagraphLocalData AttributedString Nat)).2.sealed_
        = (⟨[⟨"a", []⟩], some 1, false⟩ : ParagraphLocalData AttributedString Nat).sealed_) ∧
    setTextLayoutManager (some 2)
        (setAttributedString [⟨"b", ["bold"]⟩]
          (⟨[⟨"a", []⟩], some 1, false⟩ : ParagraphLocalData AttributedString Nat)).2
      = setAttributedString [⟨"b", ["bold"]⟩]
        (setTextLayoutManager (some 2)
          (⟨[⟨"a", []⟩], some 1, false⟩ : ParagraphLocalData AttributedString Nat)).2) :=
  ⟨rfl,
    setters_frame_and_commute
      (⟨[⟨"a", []⟩], some 1, false⟩ : ParagraphLocalData AttributedString Nat)
      rfl [⟨"b", ["bold"]⟩] (some 2)⟩

/-- C10: setters overwrite (last write wins): on every unsealed object,
`setAttributedString v1` returns, and followed by `setAttributedString v2` it
gives the outcome and object of `setAttributedString v2` alone, so that
`getAttributedString` returns `v2`; likewise for `setTextLayoutManager` and
`getTextLayoutManager`; a setter called twice with one argument equals one
call. -/
theorem setters_last_write_wins (s : ParagraphLocalData AS TLM)
    (hs : s.sealed_ = false) (v1 v2 : AS) (r1 r2 : Option TLM) :
    ((setAttributedString v1 s).1 = .ok () ∧
      setAttributedString v2 (setAttributedString v1 s).2 = setAttributedString v2 s ∧
      (getAttributedString (setAttributedString v2 (setAttributedString v1 s).2).2).1
        = .ok v2 ∧
      setAttributedString v1 (setAttributedString v1 s).2 = setAttributedString v1 s) ∧
    ((setTextLayoutManager r1 s).1 = .ok () ∧
      setTextLayoutManager r2 (setTextLayoutManager r1 s).2 = setTextLayoutManager r2 s ∧
      (getTextLayoutManager (setTextLayoutManager r2 (setTextLayoutManager r1 s).2).2).1
        = .ok r2 ∧
      setTextLayoutManager r1 (setTextLayoutManager r1 s).2 = setTextLayoutManager r1 s) := by
  have ha : ∀ v w : AS,
      setAttributedString w (setAttributedString v s).2 = setAttributedString w s := by
    intro v w
    simp [setAttributedString, ensureUnsealed, hs]
  have hr : ∀ q w : Option TLM,
      setTextLayoutManager w (setTextLayoutManager q s).2 = setTextLayoutManager w s := by
    intro q w
    simp [setTextLayoutManager, ensureUnsealed, hs]
  refine ⟨⟨?_, ha v1 v2, ?_, ha v1 v1⟩, ⟨?_, hr r1 r2, ?_, hr r1 r1⟩⟩
  · rw [setAttributedString_of_unsealed v1 s hs]
  · rw [ha, setAttributedString_of_unsealed v2 s hs]; rfl
  · rw [setTextLayoutManager_of_unsealed r1 s hs]
  · rw [hr, setTextLayoutManager_of_unsealed r2 s hs]; rfl

/-- Witness of C10: a fresh object, two runs and two layout managers. -/
theorem setters_last_write_wins_witness :
    (fresh : ParagraphLocalData AttributedString Nat).sealed_ = false ∧
    (((setAttributedString [⟨"one", []⟩] (fresh : ParagraphLocalData AttributedString Nat)).1
        = .ok () ∧
      setAttributedString [⟨"two", ["bold"]⟩]
          (setAttributedString [⟨"one", []⟩] (fresh : ParagraphLocalData AttributedString Nat)).2
        = setAttributedString [⟨"two", ["bold"]⟩] fresh ∧
      (getAttributedString
          (setAttributedString [⟨"two", ["bold"]⟩]
            (setAttributedString [⟨"one", []⟩]
              (fresh : ParagraphLocalData AttributedString Nat)).2).2).1
        = .ok [⟨"two", ["bold"]⟩] ∧
      setAttributedString [⟨"one", []⟩]
          (setAttributedString [⟨"one", []⟩] (fresh : ParagraphLocalData AttributedString Nat)).2
        = setAttributedString [⟨"one", []⟩] fresh) ∧
    ((setTextLayoutManager (some 1) (fresh : ParagraphLocalData AttributedString Nat)).1
        = .ok () ∧
      setTextLayoutManager (some 2)
          (setTextLayoutManager (some 1) (fresh : ParagraphLocalData AttributedString Nat)).2
        = setTextLayoutManager (some 2) fresh ∧
      (getTextLayoutManager
          (setTextLayoutManager (some 2)
            (setTextLayoutManager (some 1)
              (fresh : ParagraphLocalData AttributedString Nat)).2).2).1
        = .ok (some 2) ∧
      setTextLayoutManager (some 1)
          (setTextLayoutManager (some 1) (fresh : ParagraphLocalData AttributedString Nat)).2
        = setTextLayoutManager (some 1) fresh)) :=
  ⟨rfl,
    setters_last_write_wins (fresh : ParagraphLocalData AttributedString Nat) rfl
      [⟨"one", []⟩] [⟨"two", ["bold"]⟩] (some 1) (some 2)⟩

end ParagraphLocalData
